import Mathlib

/-!
Verification development for the carbon-offset-quality-screener scoring and
flagging core (src/scorer.py and src/red_flags.py).

The Python code is shallowly embedded:
* strings are lists of characters (`Str`); Python `str.lower`, `str.strip`
  and substring containment (`in`) become `lowerStr`, `stripStr`, `isSub`;
* dates are integer day numbers; pandas `(a - b).days` becomes integer
  subtraction, and the `/ 365.25` year conversion is exact rational division;
* floats are rationals; Python `round(x, n)` (banker's rounding) becomes
  `pround n`;
* a missing / NaN field of a record is `Option.none`; `row.get(k, 0)`
  becomes `Option.getD _ 0`;
* the detector's per-column existence checks (`"col" in df.columns`) become
  a `Schema` of booleans, and `pd.Timestamp.today() + DateOffset(months=12)`
  is passed in as the explicit day-number parameter `todayPlus12m`.
-/

namespace CarbonScreener

/-- Python strings, embedded as lists of characters. -/
abbrev Str := List Char

/-- Python `str.lower()` (ASCII-faithful). -/
def lowerStr (s : Str) : Str := s.map Char.toLower

/-- Whitespace test used by Python `str.strip()`. -/
def isWS (c : Char) : Bool := c.isWhitespace

/-- Python `str.strip()`: drop whitespace from both ends. -/
def stripStr (s : Str) : Str :=
  ((s.dropWhile isWS).reverse.dropWhile isWS).reverse

/-- Python substring containment `needle in hay`. -/
def isSub (n : Str) : Str → Bool
  | [] => n.isEmpty
  | c :: t => n.isPrefixOf (c :: t) || isSub n t

/-- Round a rational to the nearest integer, ties to even
(Python `round` semantics on exact values). -/
def rndHalfEven (q : ℚ) : ℤ :=
  if q - (⌊q⌋ : ℚ) < 1/2 then ⌊q⌋
  else if (1:ℚ)/2 < q - (⌊q⌋ : ℚ) then ⌊q⌋ + 1
  else if ⌊q⌋ % 2 = 0 then ⌊q⌋ else ⌊q⌋ + 1

/-- Python `round(q, n)`: banker's rounding to `n` decimal places. -/
def pround (n : ℕ) (q : ℚ) : ℚ :=
  (rndHalfEven (q * ((10 ^ n : ℕ) : ℚ)) : ℚ) / ((10 ^ n : ℕ) : ℚ)

/-! ## scorer.py: static tables -/

/-- `HIGH_RISK_TYPES` from scorer.py. -/
def HIGH_RISK_TYPES : List Str :=
  ["REDD+".toList,
   "Avoided Deforestation".toList,
   "Avoided Unplanned Deforestation and Degradation".toList]

/-- `MEDIUM_RISK_TYPES` from scorer.py. -/
def MEDIUM_RISK_TYPES : List Str :=
  ["Improved Forest Management".toList,
   "Agriculture Forestry and Other Land Use".toList,
   "Afforestation/Reforestation".toList]

/-- `COUNTRY_GOVERNANCE_SCORE` from scorer.py. -/
def COUNTRY_GOVERNANCE_SCORE : List (Str × ℚ) :=
  [("Brazil".toList, 0.55), ("Indonesia".toList, 0.50), ("Peru".toList, 0.60),
   ("Colombia".toList, 0.55), ("Mexico".toList, 0.60), ("Kenya".toList, 0.50),
   ("Tanzania".toList, 0.45), ("Cambodia".toList, 0.40), ("India".toList, 0.55),
   ("China".toList, 0.50), ("Vietnam".toList, 0.45), ("Madagascar".toList, 0.35),
   ("Democratic Republic of the Congo".toList, 0.25), ("Uganda".toList, 0.40),
   ("Chile".toList, 0.75), ("Costa Rica".toList, 0.75), ("Uruguay".toList, 0.75),
   ("Ghana".toList, 0.55), ("Senegal".toList, 0.55), ("Rwanda".toList, 0.60),
   ("United States".toList, 0.85), ("Canada".toList, 0.85), ("Australia".toList, 0.85),
   ("Germany".toList, 0.90), ("Sweden".toList, 0.90)]

/-- `DEFAULT_GOVERNANCE_SCORE` from scorer.py. -/
def DEFAULT_GOVERNANCE_SCORE : ℚ := 0.50

/-- One cleaned project record (row of the input dataframe).  A field that is
absent or NaN is `none`; dates are day numbers. -/
structure Rec where
  registration_date : Option ℤ
  crediting_period_start : Option ℤ
  crediting_period_end : Option ℤ
  total_issued : Option ℚ
  total_retired : Option ℚ
  total_buffer_pool : Option ℚ
  estimated_annual_reductions : Option ℚ
  proponent : Option Str
  region : Option Str
  project_type : Option Str
  country : Option Str
deriving DecidableEq

/-- Days per year used by scorer.py (`365.25`). -/
def daysPerYear : ℚ := 365.25

/-- `CarbonQualityScorer._vintage_score`. -/
def vintage_score (r : Rec) (reference_date : ℤ) : ℚ :=
  match r.registration_date with
  | none => 50
  | some reg =>
    let age_years : ℚ := ((reference_date - reg : ℤ) : ℚ) / daysPerYear
    if age_years ≤ 3 then 100
    else if age_years ≤ 8 then 100 - (age_years - 3) * 6
    else if age_years ≤ 12 then 70 - (age_years - 8) * 10
    else max 10 (30 - (age_years - 12) * 5)

/-- `CarbonQualityScorer._retirement_ratio_score`. -/
def retirement_ratio_score (r : Rec) : ℚ :=
  let issued := r.total_issued.getD 0
  let retired := r.total_retired.getD 0
  if issued ≤ 0 then 50
  else
    let ratio := retired / issued
    if 0.80 ≤ ratio then 100
    else if 0.50 ≤ ratio then 60 + (ratio - 0.50) * 200
    else if 0.20 ≤ ratio then 30 + (ratio - 0.20) * 100
    else if 0.05 ≤ ratio then 10 + (ratio - 0.05) * 133
    else max 0 (ratio * 200)

/-- `CarbonQualityScorer._project_type_score`. -/
def project_type_score (project_type : Option Str) : ℚ :=
  match project_type with
  | none => 50
  | some s =>
    let pt := stripStr s
    if HIGH_RISK_TYPES.any (fun ht => isSub (lowerStr ht) (lowerStr pt)) then 30
    else if MEDIUM_RISK_TYPES.any (fun mt => isSub (lowerStr mt) (lowerStr pt)) then 60
    else 85

/-- Populated test for a numeric field: present, non-NaN and nonzero. -/
def popQ (o : Option ℚ) : ℕ :=
  match o with
  | some v => if v = 0 then 0 else 1
  | none => 0

/-- Populated test for a string field (any present string compares `!= 0`). -/
def popS (o : Option Str) : ℕ := if o.isSome then 1 else 0

/-- Populated test for a date field (any present date compares `!= 0`). -/
def popD (o : Option ℤ) : ℕ := if o.isSome then 1 else 0

/-- `CarbonQualityScorer._transparency_score`. -/
def transparency_score (r : Rec) : ℚ :=
  let populated : ℕ :=
    popS r.proponent + popS r.region +
    popD r.crediting_period_start + popD r.crediting_period_end +
    popQ r.estimated_annual_reductions + popQ r.total_buffer_pool
  pround 1 ((populated : ℚ) / 6 * 100)

/-- `CarbonQualityScorer._additionality_score` (the reference date parameter
is accepted as in the source but not used). -/
def additionality_score (r : Rec) (_reference_date : ℤ) : ℚ :=
  match r.registration_date, r.crediting_period_start with
  | some reg, some cp =>
    let lag_years : ℚ := ((reg - cp : ℤ) : ℚ) / daysPerYear
    if lag_years ≤ 1 then 90
    else if lag_years ≤ 3 then 75
    else if lag_years ≤ 6 then 55
    else if lag_years ≤ 10 then 35
    else 15
  | _, _ => 50

/-- `COUNTRY_GOVERNANCE_SCORE.get(key)` (dict lookup). -/
def govLookup (c : Str) : Option ℚ :=
  (COUNTRY_GOVERNANCE_SCORE.find? (fun p => p.1 == c)).map Prod.snd

/-- `CarbonQualityScorer._governance_score`. -/
def governance_score (country : Option Str) : ℚ :=
  match country with
  | none => DEFAULT_GOVERNANCE_SCORE * 100
  | some c =>
    let score := (govLookup (stripStr c)).getD DEFAULT_GOVERNANCE_SCORE
    pround 1 (score * 100)

/-- A scored record: the six sub-scores, the composite `cqi` and the tier. -/
structure Scored where
  vintage_score : ℚ
  retirement_ratio_score : ℚ
  project_type_score : ℚ
  transparency_score : ℚ
  additionality_score : ℚ
  governance_score : ℚ
  cqi : ℚ
  quality_tier : Option String
deriving DecidableEq

/-- `pd.cut(cqi, bins=[0,40,55,70,85,100], labels=..., include_lowest=True)`:
right-closed bins, the first one also left-closed at 0; out of range is NaN. -/
def quality_tier_of (cqi : ℚ) : Option String :=
  if cqi < 0 then none
  else if cqi ≤ 40 then some "Very Low"
  else if cqi ≤ 55 then some "Low"
  else if cqi ≤ 70 then some "Medium"
  else if cqi ≤ 85 then some "High"
  else if cqi ≤ 100 then some "Very High"
  else none

/-- `CarbonQualityScorer.score_all`, per record: all six sub-scores, the
weighted composite rounded to 2 decimals, and the tier. -/
def score_all (r : Rec) (reference_date : ℤ) : Scored :=
  let v := vintage_score r reference_date
  let rr := retirement_ratio_score r
  let p := project_type_score r.project_type
  let t := transparency_score r
  let a := additionality_score r reference_date
  let g := governance_score r.country
  let cqi := pround 2 (v * 0.20 + rr * 0.20 + p * 0.20 + t * 0.15 + a * 0.15 + g * 0.10)
  Scored.mk v rr p t a g cqi (quality_tier_of cqi)

/-! ## red_flags.py -/

/-- Which of the columns consulted by the detector are present in the batch
schema (`"col" in df.columns`). -/
structure Schema where
  has_vintage_score : Bool
  has_total_retired : Bool
  has_total_issued : Bool
  has_project_type : Bool
  has_additionality_score : Bool
  has_governance_score : Bool
  has_crediting_period_end : Bool
  has_transparency_score : Bool
deriving DecidableEq

/-- A scored row as seen by the detector. -/
structure DRec where
  vintage_score : ℚ
  total_issued : ℚ
  total_retired : ℚ
  project_type : Option Str
  additionality_score : ℚ
  governance_score : ℚ
  crediting_period_end : Option ℤ
  transparency_score : ℚ
deriving DecidableEq

/-- `RedFlagDetector.GOVERNANCE_THRESHOLD`. -/
def GOVERNANCE_THRESHOLD : ℚ := 45.0

/-- `RedFlagDetector._add_flag` for one row: append the code when the mask
holds and the code is not already present. -/
def addFlag (cond : Bool) (code : String) (fs : List String) : List String :=
  if cond && !(fs.contains code) then fs ++ [code] else fs

/-- `df["project_type"].str.contains("REDD", case=False, na=False)` for one
row: case-insensitive substring, false on a missing value. -/
def reddCond (pt : Option Str) : Bool :=
  match pt with
  | some s => isSub (lowerStr "REDD".toList) (lowerStr s)
  | none => false

/-- `df["crediting_period_end"].notna() & (df["crediting_period_end"] <= today + 12 months)`
for one row. -/
def expiredCond (cpe : Option ℤ) (todayPlus12m : ℤ) : Bool :=
  match cpe with
  | some d => decide (d ≤ todayPlus12m)
  | none => false

/-- The flag list built by `RedFlagDetector.detect` for one row: the nine
rules in source order, each guarded by column presence. -/
def detectFlags (sch : Schema) (todayPlus12m : ℤ) (r : DRec) : List String :=
  let fs : List String := []
  let fs := addFlag (sch.has_vintage_score && decide (r.vintage_score < 30))
    "HIGH_VINTAGE" fs
  let fs := addFlag (sch.has_total_retired && sch.has_total_issued &&
    decide (0 < r.total_issued) && decide (r.total_retired = 0))
    "ZERO_RETIREMENTS" fs
  let fs := addFlag (sch.has_total_retired && sch.has_total_issued &&
    decide (r.total_retired / r.total_issued < 0.10) &&
    decide (0 < r.total_issued) && decide (0 < r.total_retired))
    "LOW_RETIREMENT_RATIO" fs
  let fs := addFlag (sch.has_project_type && reddCond r.project_type)
    "REDD_CONTROVERSY" fs
  let fs := addFlag (sch.has_total_issued && decide (50000000 < r.total_issued))
    "MASSIVE_ISSUANCE" fs
  let fs := addFlag (sch.has_additionality_score && decide (r.additionality_score < 40))
    "REGISTRATION_LAG" fs
  let fs := addFlag (sch.has_governance_score && decide (r.governance_score < GOVERNANCE_THRESHOLD))
    "WEAK_GOVERNANCE" fs
  let fs := addFlag (sch.has_crediting_period_end && expiredCond r.crediting_period_end todayPlus12m)
    "EXPIRED_CREDITING" fs
  let fs := addFlag (sch.has_transparency_score && decide (r.transparency_score < 40))
    "INCOMPLETE_DATA" fs
  fs

/-- `FLAG_CATALOGUE`: code ↦ (label, severity). -/
def FLAG_CATALOGUE : List (String × String × String) :=
  [("HIGH_VINTAGE", "High Vintage Age", "medium"),
   ("ZERO_RETIREMENTS", "No Retirements Recorded", "high"),
   ("LOW_RETIREMENT_RATIO", "Low Retirement Rate (<10%)", "medium"),
   ("REDD_CONTROVERSY", "REDD+ Controversy Risk", "high"),
   ("MASSIVE_ISSUANCE", "Unusually High Issuance Volume", "medium"),
   ("REGISTRATION_LAG", "Long Registration Lag (>5 years)", "medium"),
   ("WEAK_GOVERNANCE", "Weak Host Country Governance", "medium"),
   ("EXPIRED_CREDITING", "Expired or Expiring Crediting Period", "low"),
   ("INCOMPLETE_DATA", "Incomplete Public Documentation", "low")]

/-- `FLAG_CATALOGUE.get(code)` giving (label, severity). -/
def catLookup (code : String) : Option (String × String) :=
  (FLAG_CATALOGUE.find? (fun p => p.1 == code)).map Prod.snd

/-- `severity_order.get(s, 0)` from `RedFlagDetector._max_severity`. -/
def severity_order (s : String) : ℕ :=
  if s = "high" then 3 else if s = "medium" then 2 else if s = "low" then 1 else 0

/-- One step of Python `max(severities, key=severity_order.get)`: replace the
running maximum only on a strictly larger key, so the first maximal element
wins. -/
def sevMax (acc x : String) : String :=
  if severity_order acc < severity_order x then x else acc

/-- `RedFlagDetector._max_severity`: "none" on an empty flag list, otherwise
the catalogue severities maximised under `severity_order` (Python `max` keeps
the first maximal element), "unknown" when no flag is in the catalogue. -/
def maxSeverity (flags : List String) : String :=
  match flags with
  | [] => "none"
  | _ =>
    match flags.filterMap (fun f => (catLookup f).map Prod.snd) with
    | [] => "unknown"
    | s :: rest => rest.foldl sevMax s

/-- The per-record output of `RedFlagDetector.detect`. -/
structure Flagged where
  flags : List String
  flag_count : ℕ
  max_severity : String
deriving DecidableEq

/-- `RedFlagDetector.detect`, per record. -/
def detect (sch : Schema) (todayPlus12m : ℤ) (r : DRec) : Flagged :=
  let fs := detectFlags sch todayPlus12m r
  Flagged.mk fs fs.length (maxSeverity fs)

/-- One row of the `get_flag_summary` table. -/
structure SummaryRow where
  flag_code : String
  label : String
  severity : String
  project_count : ℕ
  pct_of_portfolio : ℚ
deriving DecidableEq

/-- Distinct elements in order of first occurrence (`collections.Counter`
key insertion order). -/
def dedupFirst : List String → List String
  | [] => []
  | x :: xs => x :: dedupFirst (xs.filter (fun y => y != x))
termination_by l => l.length
decreasing_by
  simp only [List.length_cons]
  exact Nat.lt_succ_of_le (List.length_filter_le _ _)

/-- Insert keeping a descending order on `project_count` (stable: an equal
count goes before existing equals, as Python's stable sort keeps first-seen
codes first). -/
def insDesc (x : SummaryRow) : List SummaryRow → List SummaryRow
  | [] => [x]
  | y :: ys => if x.project_count < y.project_count then y :: insDesc x ys else x :: y :: ys

/-- Stable sort by descending `project_count` (`Counter.most_common`). -/
def sortDesc : List SummaryRow → List SummaryRow
  | [] => []
  | x :: xs => insDesc x (sortDesc xs)

/-- The loop body of `get_flag_summary`: the summary row built for one code,
from the flattened flag list and the batch size (`len(df)`). -/
def summaryRowFor (all_flags : List String) (batch_size : ℕ) (c : String) : SummaryRow :=
  SummaryRow.mk c ((catLookup c).elim c Prod.fst) ((catLookup c).elim "unknown" Prod.snd)
    (all_flags.count c)
    (pround 1 ((all_flags.count c : ℚ) / (batch_size : ℚ) * 100))

/-- `RedFlagDetector.get_flag_summary` over the batch's flag lists: one row
per code occurring at least once, with occurrence count and percentage of
the batch, sorted by descending count. -/
def get_flag_summary (batch : List (List String)) : List SummaryRow :=
  let all_flags := batch.flatten
  let rows := (dedupFirst all_flags).map (summaryRowFor all_flags batch.length)
  sortDesc rows

/-- The nine catalogue codes, in catalogue order. -/
def allCodes : List String :=
  ["HIGH_VINTAGE", "ZERO_RETIREMENTS", "LOW_RETIREMENT_RATIO", "REDD_CONTROVERSY",
   "MASSIVE_ISSUANCE", "REGISTRATION_LAG", "WEAK_GOVERNANCE", "EXPIRED_CREDITING",
   "INCOMPLETE_DATA"]

/-- Catalogue severity of a code, `"unknown"` off the catalogue. -/
def sevOf (f : String) : String := ((catLookup f).map Prod.snd).getD "unknown"

/-- A record with every field absent. -/
def emptyRec : Rec := Rec.mk none none none none none none none none none none none

/-- 100 issued, 75 retired: retirement ratio 0.75. -/
def recRetired75 : Rec :=
  Rec.mk none none none (some 100) (some 75) none none none none none none

/-- 100 issued, 79 retired: retirement ratio 0.79. -/
def recRetired79 : Rec :=
  Rec.mk none none none (some 100) (some 79) none none none none none none

/-- 100 issued, 80 retired: retirement ratio 0.80. -/
def recRetired80 : Rec :=
  Rec.mk none none none (some 100) (some 80) none none none none none none

/-- A record whose composite score is exactly 40: every scoring input absent
except the ledger, whose retirement ratio 0.275 scores 37.5, giving
cqi = 10 + 7.5 + 10 + 0 + 7.5 + 5 = 40. -/
def recCqi40 : Rec :=
  Rec.mk none none none (some 100) (some (55/2)) none none none none none none

/-- A schema with every detector input column present. -/
def schemaAll : Schema := Schema.mk true true true true true true true true

/-- A schema with every detector input column absent. -/
def schemaNone : Schema := Schema.mk false false false false false false false false

/-- A scored row triggering no detector rule. -/
def drecClean : DRec := DRec.mk 50 0 0 none 50 50 none 50

/-- A scored row triggering only ZERO_RETIREMENTS (a high-severity flag). -/
def drecZero : DRec := DRec.mk 50 100 0 none 50 50 none 50

/-- A scored row triggering only LOW_RETIREMENT_RATIO. -/
def drecLow : DRec := DRec.mk 50 100 5 none 50 50 none 50

/-! ## Helper lemmas -/

theorem mem_addFlag {c code : String} {b : Bool} {fs : List String} :
    c ∈ addFlag b code fs ↔ c ∈ fs ∨ (b = true ∧ c = code) := by
  unfold addFlag
  rcases b with _ | _
  · simp
  · by_cases hc : fs.contains code
    · have hm : code ∈ fs := by simpa using hc
      simp only [hc, Bool.not_true, Bool.and_false, if_neg (by simp : ¬(false = true)), true_and]
      constructor
      · exact Or.inl
      · rintro (h | rfl)
        · exact h
        · exact hm
    · simp only [hc, Bool.not_false, Bool.and_true, if_true, List.mem_append,
        List.mem_singleton, true_and]

theorem nodup_addFlag {code : String} {b : Bool} {fs : List String} (h : fs.Nodup) :
    (addFlag b code fs).Nodup := by
  unfold addFlag
  split
  · next hcond =>
    have hnm : code ∉ fs := by
      have h2 := (Bool.and_eq_true _ _).mp hcond |>.2
      simpa using h2
    simp [List.nodup_append, h, hnm]
  · exact h

theorem nodup_detectFlags (sch : Schema) (thr : ℤ) (r : DRec) :
    (detectFlags sch thr r).Nodup := by
  unfold detectFlags
  exact nodup_addFlag (nodup_addFlag (nodup_addFlag (nodup_addFlag (nodup_addFlag
    (nodup_addFlag (nodup_addFlag (nodup_addFlag (nodup_addFlag List.nodup_nil))))))))

theorem highVintage_mem {sch : Schema} {thr : ℤ} {r : DRec} :
    "HIGH_VINTAGE" ∈ detectFlags sch thr r ↔
      (sch.has_vintage_score = true ∧ r.vintage_score < 30) := by
  simp [detectFlags, mem_addFlag]

theorem zeroRetirements_mem {sch : Schema} {thr : ℤ} {r : DRec} :
    "ZERO_RETIREMENTS" ∈ detectFlags sch thr r ↔
      (sch.has_total_retired = true ∧ sch.has_total_issued = true ∧
        0 < r.total_issued ∧ r.total_retired = 0) := by
  simp [detectFlags, mem_addFlag, and_assoc]

theorem lowRetirementRatio_mem {sch : Schema} {thr : ℤ} {r : DRec} :
    "LOW_RETIREMENT_RATIO" ∈ detectFlags sch thr r ↔
      (sch.has_total_retired = true ∧ sch.has_total_issued = true ∧
        r.total_retired / r.total_issued < 0.10 ∧ 0 < r.total_issued ∧
        0 < r.total_retired) := by
  simp [detectFlags, mem_addFlag, and_assoc]

theorem reddControversy_mem {sch : Schema} {thr : ℤ} {r : DRec} :
    "REDD_CONTROVERSY" ∈ detectFlags sch thr r ↔
      (sch.has_project_type = true ∧ reddCond r.project_type = true) := by
  simp [detectFlags, mem_addFlag]

theorem massiveIssuance_mem {sch : Schema} {thr : ℤ} {r : DRec} :
    "MASSIVE_ISSUANCE" ∈ detectFlags sch thr r ↔
      (sch.has_total_issued = true ∧ 50000000 < r.total_issued) := by
  simp [detectFlags, mem_addFlag]

theorem registrationLag_mem {sch : Schema} {thr : ℤ} {r : DRec} :
    "REGISTRATION_LAG" ∈ detectFlags sch thr r ↔
      (sch.has_additionality_score = true ∧ r.additionality_score < 40) := by
  simp [detectFlags, mem_addFlag]

theorem weakGovernance_mem {sch : Schema} {thr : ℤ} {r : DRec} :
    "WEAK_GOVERNANCE" ∈ detectFlags sch thr r ↔
      (sch.has_governance_score = true ∧ r.governance_score < GOVERNANCE_THRESHOLD) := by
  simp [detectFlags, mem_addFlag]

theorem expiredCrediting_mem {sch : Schema} {thr : ℤ} {r : DRec} :
    "EXPIRED_CREDITING" ∈ detectFlags sch thr r ↔
      (sch.has_crediting_period_end = true ∧ expiredCond r.crediting_period_end thr = true) := by
  simp [detectFlags, mem_addFlag]

theorem incompleteData_mem {sch : Schema} {thr : ℤ} {r : DRec} :
    "INCOMPLETE_DATA" ∈ detectFlags sch thr r ↔
      (sch.has_transparency_score = true ∧ r.transparency_score < 40) := by
  simp [detectFlags, mem_addFlag]

theorem mem_detectFlags_allCodes {c : String} {sch : Schema} {thr : ℤ} {r : DRec}
    (h : c ∈ detectFlags sch thr r) : c ∈ allCodes := by
  simp only [detectFlags, mem_addFlag, List.not_mem_nil, false_or] at h
  rcases h with ((((((((⟨-, rfl⟩ | ⟨-, rfl⟩) | ⟨-, rfl⟩) | ⟨-, rfl⟩) | ⟨-, rfl⟩) |
    ⟨-, rfl⟩) | ⟨-, rfl⟩) | ⟨-, rfl⟩) | ⟨-, rfl⟩) <;> simp [allCodes]

/-! ## Claims -/

/-- C1: the claim says every sub-score produced by `score_all` lies in
[0, 100].  The code contradicts it (and its own docstring "All sub-scores
are normalized to [0, 100]"): at total_issued = 100, total_retired = 75 the
retirement ratio branch `60 + (0.75 − 0.50) × 200` yields 110. -/
theorem C1_retirement_subscore_exceeds_100 :
    (score_all recRetired75 0).retirement_ratio_score = 110 ∧
      ¬(score_all recRetired75 0).retirement_ratio_score ≤ 100 := by
  have h : (score_all recRetired75 0).retirement_ratio_score = 110 := by
    norm_num [score_all, retirement_ratio_score, recRetired75]
  refine ⟨h, ?_⟩
  rw [h]
  norm_num

/-- C4: the claim says `retirement_ratio_score` is non-decreasing in
total_retired for fixed total_issued > 0.  The code violates it: with
issued 100 fixed and 0 ≤ 79 ≤ 80 ≤ 100, the score drops from 118 at
retired = 79 to 100 at retired = 80. -/
theorem C4_monotonicity_violated :
    (0:ℚ) ≤ 79 ∧ (79:ℚ) ≤ 80 ∧ (80:ℚ) ≤ 100 ∧
    retirement_ratio_score recRetired79 = 118 ∧
    retirement_ratio_score recRetired80 = 100 ∧
    retirement_ratio_score recRetired80 < retirement_ratio_score recRetired79 := by
  have h79 : retirement_ratio_score recRetired79 = 118 := by
    norm_num [retirement_ratio_score, recRetired79]
  have h80 : retirement_ratio_score recRetired80 = 100 := by
    norm_num [retirement_ratio_score, recRetired80]
  refine ⟨by norm_num, by norm_num, by norm_num, h79, h80, ?_⟩
  rw [h79, h80]
  norm_num

/-- C3 counterexample: a record with cqi exactly 40 is assigned the tier
"Very Low", not "Low" as the claim states. -/
theorem C3_counterexample :
    (score_all recCqi40 0).cqi = 40 ∧
      (score_all recCqi40 0).quality_tier ≠ some "Low" := by
  have hc : (score_all recCqi40 0).cqi = 40 := by
    norm_num [score_all, recCqi40, vintage_score, retirement_ratio_score, project_type_score,
      transparency_score, additionality_score, governance_score, DEFAULT_GOVERNANCE_SCORE,
      popQ, popS, popD, pround, rndHalfEven]
  refine ⟨hc, ?_⟩
  have hq : (score_all recCqi40 0).quality_tier = quality_tier_of ((score_all recCqi40 0).cqi) := rfl
  rw [hq, hc]
  norm_num [quality_tier_of]
  decide

/-- C3 (amended): a record whose computed cqi equals exactly 40.0 is assigned
quality_tier "Very Low" — the cqi = 40 boundary value falls into the lower of
the two adjacent tiers, the bins being left-open and right-closed. -/
theorem C3_cqi40_tier_very_low (r : Rec) (ref : ℤ)
    (h : (score_all r ref).cqi = 40) :
    (score_all r ref).quality_tier = some "Very Low" := by
  have hq : (score_all r ref).quality_tier = quality_tier_of ((score_all r ref).cqi) := rfl
  rw [hq, h]
  norm_num [quality_tier_of]

/-- C3 witness: the amended theorem applied at a concrete record whose cqi
is exactly 40. -/
theorem C3_cqi40_tier_very_low_witness :
    (score_all recCqi40 0).cqi = 40 ∧
      (score_all recCqi40 0).quality_tier = some "Very Low" := by
  have hc : (score_all recCqi40 0).cqi = 40 := by
    norm_num [score_all, recCqi40, vintage_score, retirement_ratio_score, project_type_score,
      transparency_score, additionality_score, governance_score, DEFAULT_GOVERNANCE_SCORE,
      popQ, popS, popD, pround, rndHalfEven]
  exact ⟨hc, C3_cqi40_tier_very_low recCqi40 0 hc⟩

/-- C6: ZERO_RETIREMENTS and LOW_RETIREMENT_RATIO are mutually exclusive for
every record: the flag list produced by detect never contains both, since the
first requires total_retired = 0 and the second total_retired > 0. -/
theorem C6_zero_low_mutually_exclusive (sch : Schema) (thr : ℤ) (r : DRec) :
    ((detectFlags sch thr r).contains "ZERO_RETIREMENTS" &&
      (detectFlags sch thr r).contains "LOW_RETIREMENT_RATIO") = false := by
  cases hz : (detectFlags sch thr r).contains "ZERO_RETIREMENTS" with
  | false => simp
  | true =>
    cases hl : (detectFlags sch thr r).contains "LOW_RETIREMENT_RATIO" with
    | false => simp
    | true =>
      exfalso
      have hz' : "ZERO_RETIREMENTS" ∈ detectFlags sch thr r := by simpa using hz
      have hl' : "LOW_RETIREMENT_RATIO" ∈ detectFlags sch thr r := by simpa using hl
      have h1 := zeroRetirements_mem.mp hz'
      have h2 := lowRetirementRatio_mem.mp hl'
      have hzero : r.total_retired = 0 := h1.2.2.2
      have hpos : 0 < r.total_retired := h2.2.2.2.2
      rw [hzero] at hpos
      exact lt_irrefl 0 hpos

/-- C10: get_flag_summary is total on a flagless batch (including the empty
batch): when every record's flag list is empty, no percentage is computed and
the summary is the empty table, not a division-by-zero error. -/
theorem C10_flagless_summary_empty (batch : List (List String))
    (h : ∀ fs ∈ batch, fs = []) :
    get_flag_summary batch = [] := by
  have hf : batch.flatten = [] := List.flatten_eq_nil_iff.mpr h
  simp only [get_flag_summary, hf]
  simp [dedupFirst, sortDesc]

/-- C10 witness: the theorem applied to a two-record batch with no flags. -/
theorem C10_flagless_summary_empty_witness :
    get_flag_summary [[], []] = [] :=
  C10_flagless_summary_empty [[], []] (by simp)

/-- C8: a missing or unknown scoring input never errors and yields the
documented neutral default — absent registration_date gives vintage 50,
total_issued ≤ 0 gives retirement ratio 50, absent project_type gives 50,
a missing registration_date or crediting_period_start gives additionality 50,
an absent or unknown country gives governance 50 — and in the detector every
rule whose required column is absent from the batch schema is skipped for all
records. -/
theorem C8_missing_inputs_defaults :
    (∀ (r : Rec) (ref : ℤ), r.registration_date = none → vintage_score r ref = 50) ∧
    (∀ r : Rec, r.total_issued.getD 0 ≤ 0 → retirement_ratio_score r = 50) ∧
    project_type_score none = 50 ∧
    (∀ (r : Rec) (ref : ℤ), r.registration_date = none ∨ r.crediting_period_start = none →
      additionality_score r ref = 50) ∧
    governance_score none = 50 ∧
    (∀ c : Str, govLookup (stripStr c) = none → governance_score (some c) = 50) ∧
    (∀ (sch : Schema) (thr : ℤ) (r : DRec),
      (sch.has_vintage_score = false → "HIGH_VINTAGE" ∉ detectFlags sch thr r) ∧
      (sch.has_total_retired = false ∨ sch.has_total_issued = false →
        "ZERO_RETIREMENTS" ∉ detectFlags sch thr r ∧
        "LOW_RETIREMENT_RATIO" ∉ detectFlags sch thr r) ∧
      (sch.has_project_type = false → "REDD_CONTROVERSY" ∉ detectFlags sch thr r) ∧
      (sch.has_total_issued = false → "MASSIVE_ISSUANCE" ∉ detectFlags sch thr r) ∧
      (sch.has_additionality_score = false → "REGISTRATION_LAG" ∉ detectFlags sch thr r) ∧
      (sch.has_governance_score = false → "WEAK_GOVERNANCE" ∉ detectFlags sch thr r) ∧
      (sch.has_crediting_period_end = false → "EXPIRED_CREDITING" ∉ detectFlags sch thr r) ∧
      (sch.has_transparency_score = false → "INCOMPLETE_DATA" ∉ detectFlags sch thr r)) := by
  refine ⟨?_, ?_, ?_, ?_, ?_, ?_, ?_⟩
  · intro r ref h
    simp [vintage_score, h]
  · intro r h
    simp only [retirement_ratio_score]
    rw [if_pos h]
  · rfl
  · intro r ref h
    rcases h with h | h <;>
      cases hreg : r.registration_date <;>
      cases hcp : r.crediting_period_start <;>
      simp_all [additionality_score]
  · norm_num [governance_score, DEFAULT_GOVERNANCE_SCORE]
  · intro c h
    simp only [governance_score, h, Option.getD_none]
    norm_num [pround, rndHalfEven, DEFAULT_GOVERNANCE_SCORE]
  · intro sch thr r
    refine ⟨?_, ?_, ?_, ?_, ?_, ?_, ?_, ?_⟩
    · intro h hm
      have := highVintage_mem.mp hm
      rw [h] at this
      exact absurd this.1 (by simp)
    · intro h
      constructor <;> intro hm
      · have := zeroRetirements_mem.mp hm
        rcases h with h | h <;> rw [h] at this
        · exact absurd this.1 (by simp)
        · exact absurd this.2.1 (by simp)
      · have := lowRetirementRatio_mem.mp hm
        rcases h with h | h <;> rw [h] at this
        · exact absurd this.1 (by simp)
        · exact absurd this.2.1 (by simp)
    · intro h hm
      have := reddControversy_mem.mp hm
      rw [h] at this
      exact absurd this.1 (by simp)
    · intro h hm
      have := massiveIssuance_mem.mp hm
      rw [h] at this
      exact absurd this.1 (by simp)
    · intro h hm
      have := registrationLag_mem.mp hm
      rw [h] at this
      exact absurd this.1 (by simp)
    · intro h hm
      have := weakGovernance_mem.mp hm
      rw [h] at this
      exact absurd this.1 (by simp)
    · intro h hm
      have := expiredCrediting_mem.mp hm
      rw [h] at this
      exact absurd this.1 (by simp)
    · intro h hm
      have := incompleteData_mem.mp hm
      rw [h] at this
      exact absurd this.1 (by simp)

/-- C8 witness: the defaults and the rule-skipping evaluated at concrete
records (all fields absent, an unlisted country, the all-absent schema). -/
theorem C8_missing_inputs_defaults_witness :
    vintage_score emptyRec 0 = 50 ∧ retirement_ratio_score emptyRec = 50 ∧
    project_type_score none = 50 ∧ additionality_score emptyRec 0 = 50 ∧
    governance_score none = 50 ∧ governance_score (some "Atlantis".toList) = 50 ∧
    "HIGH_VINTAGE" ∉ detectFlags schemaNone 0 drecClean ∧
    "ZERO_RETIREMENTS" ∉ detectFlags schemaNone 0 drecZero ∧
    "LOW_RETIREMENT_RATIO" ∉ detectFlags schemaNone 0 drecLow ∧
    "REDD_CONTROVERSY" ∉ detectFlags schemaNone 0 drecClean ∧
    "MASSIVE_ISSUANCE" ∉ detectFlags schemaNone 0 drecClean ∧
    "REGISTRATION_LAG" ∉ detectFlags schemaNone 0 drecClean ∧
    "WEAK_GOVERNANCE" ∉ detectFlags schemaNone 0 drecClean ∧
    "EXPIRED_CREDITING" ∉ detectFlags schemaNone 0 drecClean ∧
    "INCOMPLETE_DATA" ∉ detectFlags schemaNone 0 drecClean := by
  have h := C8_missing_inputs_defaults
  exact ⟨h.1 emptyRec 0 rfl,
    h.2.1 emptyRec (by norm_num [emptyRec]),
    h.2.2.1,
    h.2.2.2.1 emptyRec 0 (Or.inl rfl),
    h.2.2.2.2.1,
    h.2.2.2.2.2.1 "Atlantis".toList (by decide),
    (h.2.2.2.2.2.2 schemaNone 0 drecClean).1 rfl,
    ((h.2.2.2.2.2.2 schemaNone 0 drecZero).2.1 (Or.inl rfl)).1,
    ((h.2.2.2.2.2.2 schemaNone 0 drecLow).2.1 (Or.inl rfl)).2,
    (h.2.2.2.2.2.2 schemaNone 0 drecClean).2.2.1 rfl,
    (h.2.2.2.2.2.2 schemaNone 0 drecClean).2.2.2.1 rfl,
    (h.2.2.2.2.2.2 schemaNone 0 drecClean).2.2.2.2.1 rfl,
    (h.2.2.2.2.2.2 schemaNone 0 drecClean).2.2.2.2.2.1 rfl,
    (h.2.2.2.2.2.2 schemaNone 0 drecClean).2.2.2.2.2.2.1 rfl,
    (h.2.2.2.2.2.2 schemaNone 0 drecClean).2.2.2.2.2.2.2 rfl⟩

theorem sevMax_or (s x : String) : sevMax s x = s ∨ sevMax s x = x := by
  unfold sevMax
  split
  · exact Or.inr rfl
  · exact Or.inl rfl

theorem foldl_sevMax_mem (l : List String) (s : String) :
    l.foldl sevMax s ∈ s :: l := by
  induction l generalizing s with
  | nil => simp
  | cons y ys ih =>
    simp only [List.foldl_cons]
    rcases sevMax_or s y with hs | hs <;> rw [hs]
    · have h := ih s
      simp only [List.mem_cons] at h ⊢
      tauto
    · have h := ih y
      simp only [List.mem_cons] at h ⊢
      tauto

theorem le_foldl_sevMax (l : List String) (s : String) :
    ∀ x ∈ s :: l, severity_order x ≤ severity_order (l.foldl sevMax s) := by
  induction l generalizing s with
  | nil => simp
  | cons y ys ih =>
    intro x hx
    simp only [List.foldl_cons]
    have hs : severity_order s ≤ severity_order (sevMax s y) := by
      unfold sevMax
      split <;> omega
    have hy : severity_order y ≤ severity_order (sevMax s y) := by
      unfold sevMax
      split <;> omega
    have hhead := ih (sevMax s y) (sevMax s y) (List.mem_cons_self _ _)
    simp only [List.mem_cons] at hx
    rcases hx with rfl | rfl | hx
    · exact le_trans hs hhead
    · exact le_trans hy hhead
    · exact ih (sevMax s y) x (List.mem_cons_of_mem _ hx)

theorem filterMap_catLookup (fs : List String) (hall : ∀ f ∈ fs, f ∈ allCodes) :
    fs.filterMap (fun f => (catLookup f).map Prod.snd) = fs.map sevOf := by
  induction fs with
  | nil => rfl
  | cons f t ih =>
    have hf : f ∈ allCodes := hall f (List.mem_cons_self _ _)
    have hsome : (catLookup f).map Prod.snd = some (sevOf f) := by
      simp only [allCodes, List.mem_cons, List.not_mem_nil, or_false] at hf
      rcases hf with rfl | rfl | rfl | rfl | rfl | rfl | rfl | rfl | rfl <;> rfl
    simp only [List.filterMap_cons, List.map_cons, hsome,
      ih (fun g hg => hall g (List.mem_cons_of_mem _ hg))]

theorem sevOf_mem_levels (f : String) (hf : f ∈ allCodes) :
    sevOf f ∈ ["high", "medium", "low"] := by
  simp only [allCodes, List.mem_cons, List.not_mem_nil, or_false] at hf
  rcases hf with rfl | rfl | rfl | rfl | rfl | rfl | rfl | rfl | rfl <;> decide

theorem maxSeverity_spec (fs : List String) (hall : ∀ f ∈ fs, f ∈ allCodes)
    (hne : fs ≠ []) :
    maxSeverity fs ∈ fs.map sevOf ∧
      ∀ x ∈ fs.map sevOf, severity_order x ≤ severity_order (maxSeverity fs) := by
  obtain ⟨f0, t, rfl⟩ : ∃ f0 t, fs = f0 :: t := by
    cases fs with
    | nil => exact absurd rfl hne
    | cons a b => exact ⟨a, b, rfl⟩
  have hms : maxSeverity (f0 :: t) = (t.map sevOf).foldl sevMax (sevOf f0) := by
    simp only [maxSeverity, filterMap_catLookup _ hall, List.map_cons]
  rw [hms]
  simp only [List.map_cons]
  exact ⟨foldl_sevMax_mem _ _, le_foldl_sevMax _ _⟩

/-- C5: for every record output by detect, max_severity is "none" exactly when
the flag set is empty; otherwise it is one of the triggered flags' catalogue
severities, is maximal among them under high > medium > low, and any
high-severity flag forces "high". -/
theorem C5_max_severity_correct (sch : Schema) (thr : ℤ) (r : DRec) :
    ((detect sch thr r).max_severity = "none" ↔ (detect sch thr r).flags = []) ∧
    (∀ f ∈ (detect sch thr r).flags,
      severity_order (sevOf f) ≤ severity_order ((detect sch thr r).max_severity)) ∧
    ((detect sch thr r).flags ≠ [] →
      (detect sch thr r).max_severity ∈ (detect sch thr r).flags.map sevOf) ∧
    ("high" ∈ (detect sch thr r).flags.map sevOf →
      (detect sch thr r).max_severity = "high") := by
  have hflags : (detect sch thr r).flags = detectFlags sch thr r := rfl
  have hmax : (detect sch thr r).max_severity = maxSeverity (detectFlags sch thr r) := rfl
  have hall : ∀ f ∈ detectFlags sch thr r, f ∈ allCodes :=
    fun f hf => mem_detectFlags_allCodes hf
  rw [hflags, hmax]
  by_cases hne : detectFlags sch thr r = []
  · rw [hne]
    refine ⟨by simp [maxSeverity], by simp, by simp, by simp⟩
  · obtain ⟨hmem, hub⟩ := maxSeverity_spec _ hall hne
    refine ⟨?_, ?_, fun _ => hmem, ?_⟩
    · constructor
      · intro hnone
        exfalso
        rw [hnone] at hmem
        obtain ⟨f, hf, hsev⟩ := List.mem_map.mp hmem
        have := sevOf_mem_levels f (hall f hf)
        rw [hsev] at this
        simp at this
      · intro h
        exact absurd h hne
    · intro f hf
      exact hub (sevOf f) (List.mem_map_of_mem _ hf)
    · intro hhigh
      have h3 : 3 ≤ severity_order (maxSeverity (detectFlags sch thr r)) := by
        have := hub "high" hhigh
        simpa [severity_order] using this
      obtain ⟨f, hf, hsev⟩ := List.mem_map.mp hmem
      have hlv := sevOf_mem_levels f (hall f hf)
      rw [hsev] at hlv
      simp only [List.mem_cons, List.not_mem_nil, or_false] at hlv
      rcases hlv with h | h | h
      · exact h
      · rw [h] at h3
        simp [severity_order] at h3
      · rw [h] at h3
        simp [severity_order] at h3

/-- C5 witness: the theorem applied to a record triggering exactly the
high-severity flag ZERO_RETIREMENTS, and the iff discharged on a record
triggering nothing. -/
theorem C5_max_severity_correct_witness :
    (detect schemaAll 0 drecZero).max_severity = "high" ∧
    ((detect schemaAll 0 drecClean).max_severity = "none" ↔
      (detect schemaAll 0 drecClean).flags = []) := by
  have hz : (detect schemaAll 0 drecZero).flags = ["ZERO_RETIREMENTS"] := by
    have : detectFlags schemaAll 0 drecZero = ["ZERO_RETIREMENTS"] := by
      norm_num [detectFlags, addFlag, schemaAll, drecZero, reddCond, expiredCond,
        GOVERNANCE_THRESHOLD]
    simpa [detect] using this
  have hhigh : "high" ∈ (detect schemaAll 0 drecZero).flags.map sevOf := by
    rw [hz]
    decide
  exact ⟨(C5_max_severity_correct schemaAll 0 drecZero).2.2.2 hhigh,
    (C5_max_severity_correct schemaAll 0 drecClean).1⟩

theorem vintage_decay_antitone (a1 a2 : ℚ) (h : a1 ≤ a2) :
    (if a2 ≤ 3 then (100:ℚ)
     else if a2 ≤ 8 then 100 - (a2 - 3) * 6
     else if a2 ≤ 12 then 70 - (a2 - 8) * 10
     else max 10 (30 - (a2 - 12) * 5)) ≤
    (if a1 ≤ 3 then (100:ℚ)
     else if a1 ≤ 8 then 100 - (a1 - 3) * 6
     else if a1 ≤ 12 then 70 - (a1 - 8) * 10
     else max 10 (30 - (a1 - 12) * 5)) := by
  split_ifs <;> try linarith
  all_goals
    first
    | (apply max_le
       · linarith
       · linarith)
    | (apply max_le
       · exact le_max_left _ _
       · exact le_trans (by linarith) (le_max_right _ _))

/-- C9: for records with a present registration_date, vintage_score never
increases with registration age: an earlier (or equal) registration date —
hence a larger age in 365.25-day years at any reference date — gives a score
no larger than a later one. -/
theorem C9_vintage_score_antitone (r1 r2 : Rec) (ref : ℤ) (d1 d2 : ℤ)
    (h1 : r1.registration_date = some d1) (h2 : r2.registration_date = some d2)
    (hle : d2 ≤ d1) :
    vintage_score r2 ref ≤ vintage_score r1 ref := by
  have hsub : ((ref - d1 : ℤ) : ℚ) ≤ ((ref - d2 : ℤ) : ℚ) := by
    have h : (ref - d1 : ℤ) ≤ (ref - d2 : ℤ) := by omega
    exact_mod_cast h
  have hdpy : (0:ℚ) < daysPerYear := by norm_num [daysPerYear]
  have hage : ((ref - d1 : ℤ) : ℚ) / daysPerYear ≤ ((ref - d2 : ℤ) : ℚ) / daysPerYear :=
    (div_le_div_iff_of_pos_right hdpy).mpr hsub
  simp only [vintage_score, h1, h2]
  exact vintage_decay_antitone _ _ hage

/-- C9 witness: the theorem at a record registered on day −3000 (older) versus
one registered on day 0, evaluated at reference day 1000: scores 40.47… and
100 respectively. -/
theorem C9_vintage_score_antitone_witness :
    vintage_score (Rec.mk (some (-3000)) none none none none none none none none none none) 1000 ≤
      vintage_score (Rec.mk (some 0) none none none none none none none none none none) 1000 :=
  C9_vintage_score_antitone
    (Rec.mk (some 0) none none none none none none none none none none)
    (Rec.mk (some (-3000)) none none none none none none none none none none)
    1000 0 (-3000) rfl rfl (by norm_num)

theorem isPrefixOf_iff : ∀ (n h : Str), n.isPrefixOf h = true ↔ ∃ t, h = n ++ t
  | [], h => by simp [List.isPrefixOf]
  | a :: as, [] => by simp [List.isPrefixOf]
  | a :: as, b :: bs => by
    simp only [List.isPrefixOf, Bool.and_eq_true, beq_iff_eq, isPrefixOf_iff as bs,
      List.cons_append]
    constructor
    · rintro ⟨rfl, t, rfl⟩
      exact ⟨t, rfl⟩
    · rintro ⟨t, ht⟩
      injection ht with hb hbs
      exact ⟨hb.symm, t, hbs⟩

theorem isSub_iff (n : Str) : ∀ h : Str, isSub n h = true ↔ ∃ p q, h = p ++ n ++ q
  | [] => by
    simp only [isSub, List.isEmpty_iff]
    constructor
    · rintro rfl
      exact ⟨[], [], rfl⟩
    · rintro ⟨p, q, hpq⟩
      rcases List.append_eq_nil.mp hpq.symm with ⟨h1, h2⟩
      exact (List.append_eq_nil.mp h1).2
  | c :: t => by
    simp only [isSub, Bool.or_eq_true, isPrefixOf_iff, isSub_iff n t]
    constructor
    · rintro (⟨q, hq⟩ | ⟨p, q, rfl⟩)
      · exact ⟨[], q, by simpa using hq⟩
      · exact ⟨c :: p, q, rfl⟩
    · rintro ⟨p, q, hpq⟩
      cases p with
      | nil => exact Or.inl ⟨q, by simpa using hpq⟩
      | cons c' p' =>
        injection hpq with h1 h2
        exact Or.inr ⟨p', q, h2⟩

theorem isSub_of_surrounded {n h : Str} (hs : isSub n h = true) (pre post : Str) :
    isSub n (pre ++ h ++ post) = true := by
  obtain ⟨p, q, rfl⟩ := (isSub_iff n h).mp hs
  refine (isSub_iff n _).mpr ⟨pre ++ p, q ++ post, ?_⟩
  simp [List.append_assoc]

theorem isSub_of_append {n m h : Str} (hs : isSub (n ++ m) h = true) :
    isSub n h = true := by
  obtain ⟨p, q, hpq⟩ := (isSub_iff (n ++ m) h).mp hs
  refine (isSub_iff n h).mpr ⟨p, m ++ q, ?_⟩
  rw [hpq]
  simp [List.append_assoc]

theorem strip_decomp (s : Str) :
    ∃ pre post, s = pre ++ stripStr s ++ post := by
  refine ⟨s.takeWhile isWS, ((s.dropWhile isWS).reverse.takeWhile isWS).reverse, ?_⟩
  have h1 : s.dropWhile isWS =
      ((s.dropWhile isWS).reverse.dropWhile isWS).reverse ++
        ((s.dropWhile isWS).reverse.takeWhile isWS).reverse := by
    calc s.dropWhile isWS = ((s.dropWhile isWS).reverse).reverse :=
          (List.reverse_reverse _).symm
    _ = (((s.dropWhile isWS).reverse.takeWhile isWS) ++
          ((s.dropWhile isWS).reverse.dropWhile isWS)).reverse := by
          rw [List.takeWhile_append_dropWhile]
    _ = ((s.dropWhile isWS).reverse.dropWhile isWS).reverse ++
          ((s.dropWhile isWS).reverse.takeWhile isWS).reverse := by
          rw [List.reverse_append]
  calc s = s.takeWhile isWS ++ s.dropWhile isWS :=
        (List.takeWhile_append_dropWhile isWS s).symm
  _ = s.takeWhile isWS ++
        (((s.dropWhile isWS).reverse.dropWhile isWS).reverse ++
          ((s.dropWhile isWS).reverse.takeWhile isWS).reverse) := by rw [← h1]
  _ = s.takeWhile isWS ++ stripStr s ++
        ((s.dropWhile isWS).reverse.takeWhile isWS).reverse := by
        rw [stripStr, List.append_assoc]

theorem lowerStr_append (a b : Str) : lowerStr (a ++ b) = lowerStr a ++ lowerStr b :=
  List.map_append Char.toLower a b

/-- C2 counterexample: the project type "REDD" (no plus sign) contains "REDD",
so the detector's predicate fires, but the scorer assigns it 85.0 — the
default non-forest branch — not 30.0, because "REDD" matches no entry of the
high-risk substring set (the closest one is "REDD+"). -/
theorem C2_counterexample :
    reddCond (some "REDD".toList) = true ∧
    project_type_score (some "REDD".toList) = 85 ∧
    (85:ℚ) ≠ 30 := by
  refine ⟨by decide, ?_, by norm_num⟩
  have h1 : (HIGH_RISK_TYPES.any
      (fun ht => isSub (lowerStr ht) (lowerStr (stripStr "REDD".toList)))) = false := by
    decide
  have h2 : (MEDIUM_RISK_TYPES.any
      (fun mt => isSub (lowerStr mt) (lowerStr (stripStr "REDD".toList)))) = false := by
    decide
  simp only [project_type_score]
  rw [h1, h2]
  simp

/-- C2 (amended): any record whose project_type contains "REDD"
(case-insensitively) triggers REDD_CONTROVERSY; the scorer assigns
project_type_score exactly 30.0 for the strings that additionally contain a
high-risk substring, in particular whenever the stripped project type
contains "REDD+" (case-insensitively), and that containment also triggers
the flag. -/
theorem C2_redd_score_and_flag (pt : Str) (sch : Schema) (thr : ℤ) (r : DRec)
    (hpt : r.project_type = some pt) (hsch : sch.has_project_type = true) :
    (isSub (lowerStr "REDD".toList) (lowerStr pt) = true →
      "REDD_CONTROVERSY" ∈ detectFlags sch thr r) ∧
    (isSub (lowerStr "REDD+".toList) (lowerStr (stripStr pt)) = true →
      project_type_score (some pt) = 30 ∧
      "REDD_CONTROVERSY" ∈ detectFlags sch thr r) := by
  have hflag : isSub (lowerStr "REDD".toList) (lowerStr pt) = true →
      "REDD_CONTROVERSY" ∈ detectFlags sch thr r := by
    intro hc
    refine reddControversy_mem.mpr ⟨hsch, ?_⟩
    rw [hpt]
    exact hc
  refine ⟨hflag, fun hplus => ⟨?_, ?_⟩⟩
  · have hhigh : HIGH_RISK_TYPES.any
        (fun ht => isSub (lowerStr ht) (lowerStr (stripStr pt))) = true := by
      refine List.any_eq_true.mpr ⟨"REDD+".toList, ?_, hplus⟩
      simp [HIGH_RISK_TYPES]
    simp [project_type_score, hhigh]
  · apply hflag
    have hsubplus : isSub (lowerStr "REDD+".toList) (lowerStr pt) = true := by
      obtain ⟨pre, post, hdec⟩ := strip_decomp pt
      have : lowerStr pt = lowerStr pre ++ lowerStr (stripStr pt) ++ lowerStr post := by
        conv_lhs => rw [hdec]
        rw [lowerStr_append, lowerStr_append]
      rw [this]
      exact isSub_of_surrounded hplus _ _
    have hsplit : lowerStr "REDD+".toList = lowerStr "REDD".toList ++ lowerStr "+".toList := by
      decide
    rw [hsplit] at hsubplus
    exact isSub_of_append hsubplus

/-- C2 witness: the amended theorem applied to the concrete project type
"REDD+": score 30 and the flag triggered. -/
theorem C2_redd_score_and_flag_witness :
    project_type_score (some "REDD+".toList) = 30 ∧
    "REDD_CONTROVERSY" ∈ detectFlags schemaAll 0
      (DRec.mk 50 0 0 (some "REDD+".toList) 50 50 none 50) := by
  have h := (C2_redd_score_and_flag "REDD+".toList schemaAll 0
    (DRec.mk 50 0 0 (some "REDD+".toList) 50 50 none 50) rfl rfl).2 (by decide)
  exact ⟨h.1, h.2⟩

theorem mem_dedupFirst : ∀ (l : List String) (a : String), a ∈ dedupFirst l ↔ a ∈ l
  | [], a => by simp [dedupFirst]
  | x :: xs, a => by
    rw [dedupFirst]
    by_cases hax : a = x
    · subst hax
      simp
    · simp only [List.mem_cons, hax, false_or]
      rw [mem_dedupFirst (xs.filter (fun y => y != x)) a]
      simp [List.mem_filter, hax]
termination_by l _ => l.length
decreasing_by
  simp only [List.length_cons]
  exact Nat.lt_succ_of_le (List.length_filter_le _ _)

theorem nodup_dedupFirst : ∀ l : List String, (dedupFirst l).Nodup
  | [] => by simp [dedupFirst]
  | x :: xs => by
    rw [dedupFirst]
    refine List.nodup_cons.mpr ⟨?_, nodup_dedupFirst _⟩
    intro hx
    have hmem := (mem_dedupFirst _ _).mp hx
    simp [List.mem_filter] at hmem
termination_by l => l.length
decreasing_by
  simp only [List.length_cons]
  exact Nat.lt_succ_of_le (List.length_filter_le _ _)

theorem count_flatten_nodup (c : String) :
    ∀ batch : List (List String), (∀ fs ∈ batch, fs.Nodup) →
      batch.flatten.count c = (batch.filter (fun fs => fs.contains c)).length := by
  intro batch
  induction batch with
  | nil => simp
  | cons fs rest ih =>
    intro h
    have hnd : fs.Nodup := h fs (List.mem_cons_self _ _)
    have hrest := ih (fun g hg => h g (List.mem_cons_of_mem _ hg))
    simp only [List.flatten_cons, List.count_append, List.filter_cons]
    by_cases hc : c ∈ fs
    · have hct : fs.contains c = true := by simpa using hc
      rw [List.count_eq_one_of_mem hnd hc, hct, if_pos rfl, List.length_cons, hrest]
      omega
    · have hcf : fs.contains c = false := by simpa using hc
      rw [List.count_eq_zero.mpr hc, hcf]
      simpa using hrest

theorem mem_insDesc {z x : SummaryRow} : ∀ {l : List SummaryRow},
    z ∈ insDesc x l ↔ z = x ∨ z ∈ l
  | [] => by simp [insDesc]
  | y :: ys => by
    unfold insDesc
    split
    · simp only [List.mem_cons, mem_insDesc]
      tauto
    · simp only [List.mem_cons]

theorem insDesc_perm (x : SummaryRow) : ∀ l : List SummaryRow,
    (insDesc x l).Perm (x :: l)
  | [] => List.Perm.refl _
  | y :: ys => by
    unfold insDesc
    split
    · exact ((insDesc_perm x ys).cons y).trans (List.Perm.swap x y ys)
    · exact List.Perm.refl _

theorem sortDesc_perm : ∀ l : List SummaryRow, (sortDesc l).Perm l
  | [] => List.Perm.refl _
  | x :: xs => (insDesc_perm x (sortDesc xs)).trans ((sortDesc_perm xs).cons x)

theorem pairwise_insDesc {x : SummaryRow} : ∀ {l : List SummaryRow},
    l.Pairwise (fun a b => b.project_count ≤ a.project_count) →
    (insDesc x l).Pairwise (fun a b => b.project_count ≤ a.project_count)
  | [], _ => by simp [insDesc]
  | y :: ys, h => by
    rw [List.pairwise_cons] at h
    unfold insDesc
    split
    · next hlt =>
      rw [List.pairwise_cons]
      refine ⟨?_, pairwise_insDesc h.2⟩
      intro b hb
      rcases mem_insDesc.mp hb with rfl | hb
      · exact le_of_lt hlt
      · exact h.1 b hb
    · next hge =>
      rw [List.pairwise_cons]
      refine ⟨?_, List.pairwise_cons.mpr h⟩
      intro b hb
      rcases List.mem_cons.mp hb with rfl | hb
      · exact Nat.le_of_not_lt hge
      · exact le_trans (h.1 b hb) (Nat.le_of_not_lt hge)

theorem pairwise_sortDesc : ∀ l : List SummaryRow,
    (sortDesc l).Pairwise (fun a b => b.project_count ≤ a.project_count)
  | [] => List.Pairwise.nil
  | _ :: xs => pairwise_insDesc (pairwise_sortDesc xs)

theorem mem_get_flag_summary {batch : List (List String)} {row : SummaryRow} :
    row ∈ get_flag_summary batch ↔
      ∃ c ∈ dedupFirst batch.flatten, summaryRowFor batch.flatten batch.length c = row := by
  rw [show get_flag_summary batch =
    sortDesc ((dedupFirst batch.flatten).map (summaryRowFor batch.flatten batch.length)) from rfl]
  rw [(sortDesc_perm _).mem_iff]
  simp [List.mem_map]

theorem get_flag_summary_spec (batch : List (List String))
    (hnd : ∀ fs ∈ batch, fs.Nodup) :
    (∀ c : String,
      (∃ row ∈ get_flag_summary batch, row.flag_code = c) ↔ ∃ fs ∈ batch, c ∈ fs) ∧
    ((get_flag_summary batch).map (fun row => row.flag_code)).Nodup ∧
    (∀ row ∈ get_flag_summary batch,
      row.project_count = (batch.filter (fun fs => fs.contains row.flag_code)).length ∧
      row.project_count ≤ batch.length ∧
      row.pct_of_portfolio =
        pround 1 ((row.project_count : ℚ) / (batch.length : ℚ) * 100)) ∧
    (get_flag_summary batch).Pairwise (fun a b => b.project_count ≤ a.project_count) := by
  refine ⟨?_, ?_, ?_, ?_⟩
  · intro c
    constructor
    · rintro ⟨row, hrow, hfc⟩
      obtain ⟨c', hc', rfl⟩ := mem_get_flag_summary.mp hrow
      have : c' = c := hfc
      subst this
      exact List.mem_flatten.mp ((mem_dedupFirst _ _).mp hc')
    · intro hex
      have hc : c ∈ dedupFirst batch.flatten :=
        (mem_dedupFirst _ _).mpr (List.mem_flatten.mpr hex)
      exact ⟨summaryRowFor batch.flatten batch.length c,
        mem_get_flag_summary.mpr ⟨c, hc, rfl⟩, rfl⟩
  · have hperm : ((get_flag_summary batch).map (fun row => row.flag_code)).Perm
        (((dedupFirst batch.flatten).map (summaryRowFor batch.flatten batch.length)).map
          (fun row => row.flag_code)) :=
      List.Perm.map _ (sortDesc_perm _)
    refine hperm.symm.nodup ?_
    rw [List.map_map]
    have : ((fun row => row.flag_code) ∘ summaryRowFor batch.flatten batch.length) =
        fun c => c := rfl
    rw [this]
    simpa using nodup_dedupFirst batch.flatten
  · intro row hrow
    obtain ⟨c, hc, rfl⟩ := mem_get_flag_summary.mp hrow
    have hcount : (summaryRowFor batch.flatten batch.length c).project_count =
        batch.flatten.count c := rfl
    refine ⟨?_, ?_, rfl⟩
    · rw [hcount, count_flatten_nodup c batch hnd]
      rfl
    · rw [hcount, count_flatten_nodup c batch hnd]
      exact List.length_filter_le _ _
  · exact pairwise_sortDesc _

/-- C7: for every batch flagged by detect, get_flag_summary has exactly one
row per code triggered by at least one record (untriggered codes omitted);
each row's project_count is the number of records whose flag set contains the
code, hence at most the batch size; pct_of_portfolio is project_count divided
by the batch size times 100, rounded to 1 decimal; and the rows are sorted by
descending project_count. -/
theorem C7_flag_summary_correct (sch : Schema) (thr : ℤ) (rs : List DRec) :
    (∀ c : String,
      (∃ row ∈ get_flag_summary (rs.map (detectFlags sch thr)), row.flag_code = c) ↔
        ∃ fs ∈ rs.map (detectFlags sch thr), c ∈ fs) ∧
    ((get_flag_summary (rs.map (detectFlags sch thr))).map (fun row => row.flag_code)).Nodup ∧
    (∀ row ∈ get_flag_summary (rs.map (detectFlags sch thr)),
      row.project_count =
        ((rs.map (detectFlags sch thr)).filter (fun fs => fs.contains row.flag_code)).length ∧
      row.project_count ≤ rs.length ∧
      row.pct_of_portfolio =
        pround 1 ((row.project_count : ℚ) / (rs.length : ℚ) * 100)) ∧
    (get_flag_summary (rs.map (detectFlags sch thr))).Pairwise
      (fun a b => b.project_count ≤ a.project_count) := by
  have hnd : ∀ fs ∈ rs.map (detectFlags sch thr), fs.Nodup := by
    intro fs hfs
    obtain ⟨r, -, rfl⟩ := List.mem_map.mp hfs
    exact nodup_detectFlags sch thr r
  obtain ⟨h1, h2, h3, h4⟩ := get_flag_summary_spec (rs.map (detectFlags sch thr)) hnd
  have hlen : (rs.map (detectFlags sch thr)).length = rs.length := List.length_map _ _
  refine ⟨h1, h2, ?_, h4⟩
  intro row hrow
  obtain ⟨hc1, hc2, hc3⟩ := h3 row hrow
  rw [hlen] at hc2 hc3
  exact ⟨hc1, hc2, hc3⟩

/-- C7 witness: the theorem's per-row facts at the concrete two-record batch
[drecZero, drecClean], whose summary is the single row for ZERO_RETIREMENTS
with project_count 1 and pct_of_portfolio 50. -/
theorem C7_flag_summary_correct_witness :
    (SummaryRow.mk "ZERO_RETIREMENTS" "No Retirements Recorded" "high" 1 50).project_count =
      (([drecZero, drecClean].map (detectFlags schemaAll 0)).filter
        (fun fs => fs.contains
          (SummaryRow.mk "ZERO_RETIREMENTS" "No Retirements Recorded" "high" 1 50).flag_code)).length ∧
    (SummaryRow.mk "ZERO_RETIREMENTS" "No Retirements Recorded" "high" 1 50).project_count ≤
      ([drecZero, drecClean] : List DRec).length ∧
    (SummaryRow.mk "ZERO_RETIREMENTS" "No Retirements Recorded" "high" 1 50).pct_of_portfolio =
      pround 1
        (((SummaryRow.mk "ZERO_RETIREMENTS" "No Retirements Recorded" "high" 1 50).project_count : ℚ) /
          (([drecZero, drecClean] : List DRec).length : ℚ) * 100) := by
  have hz : detectFlags schemaAll 0 drecZero = ["ZERO_RETIREMENTS"] := by
    norm_num [detectFlags, addFlag, schemaAll, drecZero, reddCond, expiredCond,
      GOVERNANCE_THRESHOLD]
  have hc : detectFlags schemaAll 0 drecClean = [] := by
    norm_num [detectFlags, addFlag, schemaAll, drecClean, reddCond, expiredCond,
      GOVERNANCE_THRESHOLD]
  have hmap : [drecZero, drecClean].map (detectFlags schemaAll 0) = [["ZERO_RETIREMENTS"], []] := by
    rw [List.map_cons, List.map_cons, List.map_nil, hz, hc]
  have hs : get_flag_summary ([drecZero, drecClean].map (detectFlags schemaAll 0)) =
      [SummaryRow.mk "ZERO_RETIREMENTS" "No Retirements Recorded" "high" 1 50] := by
    rw [hmap]
    norm_num [get_flag_summary, dedupFirst, sortDesc, insDesc, summaryRowFor, catLookup,
      FLAG_CATALOGUE, pround, rndHalfEven, List.count_cons, List.find?]
    decide
  have hmem : (SummaryRow.mk "ZERO_RETIREMENTS" "No Retirements Recorded" "high" 1 50) ∈
      get_flag_summary ([drecZero, drecClean].map (detectFlags schemaAll 0)) := by
    rw [hs]
    exact List.mem_cons_self _ _
  exact (C7_flag_summary_correct schemaAll 0 [drecZero, drecClean]).2.2.1 _ hmem

end CarbonScreener
